import Mathlib

/-!
Shallow embedding of the femcare chat session controller
(src/app/api/chat/check-ollama/route.ts and the unnamed components),
with theorems settling the frozen claims about its specification.

Modelling conventions:
- JS Date instants are Nat epoch milliseconds; the persisted ISO-8601
  timestamp round trip (Date to ISO string to Date) is exact at
  millisecond precision, so a stored timestamp is kept as its instant.
- localStorage is a record of optional logical values (Store).
- React useState cells become fields of ChatState; an event handler is a
  function on ChatState, parameterised by its nondeterministic inputs
  (clock reading, random seeds, fetch outcome).
- handleSubmit suspends at the awaited fetch: handleSubmitStart is the
  synchronous part up to and including building the outbound request,
  handleSubmitResolve is the continuation that runs when the fetch
  settles. setState calls in the continuation act on the current state.
-/

inductive Role where
  | user
  | assistant
deriving DecidableEq, Repr

inductive ModelType where
  | ollama
  | openrouter
deriving DecidableEq, Repr

inductive ConnStatus where
  | connected
  | disconnected
  | checking
deriving DecidableEq, Repr

/-- A chat message as in the Message type of route.ts (lines 41-46). -/
structure Message where
  id : String
  role : Role
  content : String
  timestamp : Nat
deriving DecidableEq, Repr

/-- A message as persisted in localStorage under healthcare-chat-history:
the JSON form keeps id, role, content, and an ISO timestamp that may be
absent in legacy data (the load effect guards on its presence). -/
structure StoredMessage where
  id : String
  role : Role
  content : String
  timestamp : Option Nat
deriving DecidableEq, Repr

/-- The localStorage keys the component reads and writes. -/
structure Store where
  history : Option (List StoredMessage)
  username : Option String
  userAvatar : Option String
  aiAvatar : Option String
deriving DecidableEq, Repr

def emptyStore : Store :=
  { history := none, username := none, userAvatar := none, aiAvatar := none }

/-- The useState cells of OllamaChatInterface (route.ts lines 54-71, 168). -/
structure ChatState where
  userName : String
  userAvatar : String
  aiAvatar : String
  editingName : Bool
  tempUserName : String
  messages : List Message
  userInput : String
  isLoading : Bool
  connectionStatus : ConnStatus
  selectedModel : ModelType
  error : Option String
deriving DecidableEq, Repr

/-- The JS String.prototype.trim operation: strip whitespace from both
ends. Modelled structurally over the character list so it reduces in the
kernel; Char.isWhitespace covers the whitespace the inputs here contain. -/
def jsTrim (s : String) : String :=
  ⟨((s.data.dropWhile Char.isWhitespace).reverse.dropWhile
      Char.isWhitespace).reverse⟩

/-- The welcome message content (route.ts lines 119-120 and 222-223). -/
def welcomeContent : String :=
  "Hello! I\x27m your FemCare assistant powered by Ollama. I can help answer women\x27s health questions, check symptoms, or recommend specialists. How can I help you today?"

/-- The synthetic welcome message (route.ts lines 116-122 and 219-225). -/
def mkWelcomeMessage (now : Nat) : Message :=
  { id := "welcome-message", role := .assistant, content := welcomeContent,
    timestamp := now }

def userAvatarUrl (seed : Nat) : String :=
  "https://api.dicebear.com/7.x/avataaars/svg?seed=" ++ Nat.repr seed

def aiAvatarUrl (seed : Nat) : String :=
  "https://api.dicebear.com/7.x/bottts/svg?seed=" ++ Nat.repr seed

/-- Serialisation of a message for localStorage: JSON.stringify keeps id,
role and content and renders the Date as an ISO instant (always present). -/
def toStored (m : Message) : StoredMessage :=
  { id := m.id, role := m.role, content := m.content, timestamp := some m.timestamp }

/-- Deserialisation in the load effect (route.ts lines 109-112): spread the
parsed message and replace the timestamp by new Date of the stored instant
when present, else by the current instant. -/
def loadStoredMessage (now : Nat) (sm : StoredMessage) : Message :=
  { id := sm.id, role := sm.role, content := sm.content,
    timestamp := sm.timestamp.getD now }

/-- The initial useState values before the mount effect runs
(route.ts lines 54-71, 168). -/
def initialChatState : ChatState :=
  { userName := "User", userAvatar := "", aiAvatar := "",
    editingName := false, tempUserName := "",
    messages := [], userInput := "", isLoading := false,
    connectionStatus := .checking, selectedModel := .ollama, error := none }

/-- The mount effect (route.ts lines 74-126): read username, avatars and
history from localStorage, generating and writing back avatars and the
seeded welcome history when absent. userSeed and aiSeed stand for the
Math.random draws, now for the Date constructions. -/
def loadSession (store : Store) (userSeed aiSeed now : Nat) :
    ChatState × Store :=
  let userName := store.username.getD "User"
  let p1 : String × Store :=
    match store.userAvatar with
    | some a => (a, store)
    | none =>
      let a := userAvatarUrl userSeed
      (a, { store with userAvatar := some a })
  let p2 : String × Store :=
    match p1.2.aiAvatar with
    | some a => (a, p1.2)
    | none =>
      let a := aiAvatarUrl aiSeed
      (a, { p1.2 with aiAvatar := some a })
  let p3 : List Message × Store :=
    match p2.2.history with
    | some pm => (pm.map (loadStoredMessage now), p2.2)
    | none =>
      let w := mkWelcomeMessage now
      ([w], { p2.2 with history := some [toStored w] })
  ({ initialChatState with
      userName := userName, userAvatar := p1.1, aiAvatar := p2.1,
      messages := p3.1 },
    p3.2)

/-- The save effect (route.ts lines 129-133): whenever messages change and
are nonempty, write them to localStorage under healthcare-chat-history. -/
def saveMessagesEffect (s : ChatState) (store : Store) : Store :=
  if s.messages.length > 0 then
    { store with history := some (s.messages.map toStored) }
  else store

/-- Outcome of the awaited fetch to /api/chat: either the fetch rejects
(network failure, carrying the Error message) or it resolves to a response
with an ok flag, an HTTP status and a body. -/
inductive FetchOutcome where
  | networkError (msg : String)
  | httpResponse (ok : Bool) (status : Nat) (body : String)
deriving DecidableEq, Repr

/-- The outbound request body built in handleSubmit (route.ts lines
191-197): exactly a messages field, each message projected to role and
content, and a model_type field. -/
structure ChatRequest where
  messages : List (Role × String)
  model_type : ModelType
deriving DecidableEq, Repr

/-- The user message object built in handleSubmit (route.ts lines 175-180):
id is Date.now().toString(). -/
def mkUserMessage (now : Nat) (text : String) : Message :=
  { id := Nat.repr now, role := .user, content := text, timestamp := now }

/-- Synchronous prefix of handleSubmit (route.ts lines 170-198): reject if
the trimmed input is empty; otherwise append the user message and issue the
fetch whose body holds the appended history projected to role and content
plus the selected model. Returns none on rejection, otherwise the state at
the suspension point together with the outbound request. -/
def handleSubmitStart (now : Nat) (s : ChatState) :
    Option (ChatState × ChatRequest) :=
  if jsTrim s.userInput = "" then none
  else
    let userMessage := mkUserMessage now s.userInput
    let s1 := { s with messages := s.messages ++ [userMessage] }
    some (s1,
      { messages := (s.messages ++ [userMessage]).map fun m => (m.role, m.content),
        model_type := s.selectedModel })

/-- Continuation of handleSubmit after the fetch settles (route.ts lines
200-214): on a resolved response, clear the input, then throw on a non-ok
status; the catch records the Error message as the session error; the
finally clears isLoading. On a rejected fetch the input is not cleared. -/
def handleSubmitResolve (outcome : FetchOutcome) (s : ChatState) : ChatState :=
  match outcome with
  | .networkError msg => { s with error := some msg, isLoading := false }
  | .httpResponse ok status _ =>
    let s2 := { s with userInput := "" }
    if ok then { s2 with isLoading := false }
    else { s2 with
      error := some ("HTTP error! status: " ++ Nat.repr status),
      isLoading := false }

/-- One full handleSubmit call with no interleaved events. -/
def handleSubmit (now : Nat) (outcome : FetchOutcome) (s : ChatState) :
    ChatState :=
  match handleSubmitStart now s with
  | none => s
  | some (s1, _) => handleSubmitResolve outcome s1

/-- handleClearChat on the component state (route.ts lines 217-228):
replace the messages by the single welcome message. -/
def handleClearChat (now : Nat) (s : ChatState) : ChatState :=
  { s with messages := [mkWelcomeMessage now] }

/-- The localStorage write performed by handleClearChat (route.ts line 227). -/
def handleClearChatStore (now : Nat) (store : Store) : Store :=
  { store with history := some [toStored (mkWelcomeMessage now)] }

/-- handleSaveUserName (route.ts lines 230-236). -/
def handleSaveUserName (s : ChatState) : ChatState :=
  if jsTrim s.tempUserName = "" then { s with editingName := false }
  else { s with userName := s.tempUserName, editingName := false }

/-- handleGenerateNewAvatars (route.ts lines 238-248). -/
def handleGenerateNewAvatars (userSeed aiSeed : Nat) (s : ChatState) :
    ChatState :=
  { s with userAvatar := userAvatarUrl userSeed, aiAvatar := aiAvatarUrl aiSeed }

/-- A JSON body carrying a status field, as returned by the probed status
endpoints; the field is optional because an arbitrary resolved body may
lack it. -/
structure ProbeBody where
  status : Option String
deriving DecidableEq, Repr

/-- Outcome of one health probe: the fetch or the json parse throws, or a
body is obtained. -/
inductive ProbeOutcome where
  | err
  | ok (body : ProbeBody)
deriving DecidableEq, Repr

/-- checkOllamaStatus in the chat interface (route.ts lines 144-153): the
new single-backend connection status after one probe. -/
def checkOllamaStatus (o : ProbeOutcome) : ConnStatus :=
  match o with
  | .ok d => if d.status == some "online" then .connected else .disconnected
  | .err => .disconnected

/-- The two boolean backend flags of the ApiStatus component
(src/unnamed/part_001). -/
structure ApiStatusState where
  ollama : Bool
  openrouter : Bool
deriving DecidableEq, Repr

/-- checkStatus in ApiStatus (src/unnamed/part_001 lines 13-31): both
probes run inside one try block, so the state is rewritten, each flag from
its own body, only when both settle; if either throws, the catch only logs
and the state is left as it was. -/
def checkStatus (o1 o2 : ProbeOutcome) (st : ApiStatusState) : ApiStatusState :=
  match o1, o2 with
  | .ok d1, .ok d2 =>
    { ollama := d1.status == some "online",
      openrouter := d2.status == some "online" }
  | _, _ => st

/-- Outcome of the upstream fetch inside the GET health route. -/
inductive HealthFetch where
  | fetchError
  | response (ok : Bool)
deriving DecidableEq, Repr

/-- The body returned by the GET ollama health route
(src/app/api/chat/check-ollama/route.ts lines 3-18). -/
structure HealthBody where
  status : String
  message : Option String
deriving DecidableEq, Repr

def routeGET (h : HealthFetch) : HealthBody :=
  match h with
  | .response true => { status := "online", message := none }
  | .response false => { status := "offline", message := none }
  | .fetchError =>
    { status := "offline",
      message := some "Ollama is not available in production environment" }

/-- Discrete events on the component state, for reachability arguments.
Submission is split at its suspension point so that events may interleave
with an in-flight fetch, as the event loop allows. -/
inductive Op where
  | setInput (text : String)
  | setTempName (text : String)
  | startEditName
  | submitStart (now : Nat)
  | submitResolve (outcome : FetchOutcome)
  | clearChat (now : Nat)
  | saveName
  | genAvatars (userSeed aiSeed : Nat)
  | statusTick (o : ProbeOutcome)
  | selectModel (m : ModelType)
deriving DecidableEq, Repr

def applyOp (op : Op) (s : ChatState) : ChatState :=
  match op with
  | .setInput t => { s with userInput := t }
  | .setTempName t => { s with tempUserName := t }
  | .startEditName => { s with editingName := true }
  | .submitStart now =>
    match handleSubmitStart now s with
    | none => s
    | some (s1, _) => s1
  | .submitResolve outcome => handleSubmitResolve outcome s
  | .clearChat now => handleClearChat now s
  | .saveName => handleSaveUserName s
  | .genAvatars u a => handleGenerateNewAvatars u a s
  | .statusTick o => { s with connectionStatus := checkOllamaStatus o }
  | .selectModel m => { s with selectedModel := m }

def applyOps (ops : List Op) (s : ChatState) : ChatState :=
  match ops with
  | [] => s
  | op :: rest => applyOps rest (applyOp op s)

/-- The component state right after first activation with empty storage. -/
def startState (userSeed aiSeed now : Nat) : ChatState :=
  (loadSession emptyStore userSeed aiSeed now).1

/-- Clock readings of the submission events of a trace, in order. -/
def submitNows (ops : List Op) : List Nat :=
  ops.filterMap fun op =>
    match op with
    | .submitStart n => some n
    | _ => none

def idsOf (s : ChatState) : List String :=
  s.messages.map Message.id

/-- The disabled condition of the submit button (route.ts line 417). -/
def submitButtonDisabled (s : ChatState) : Bool :=
  s.isLoading || jsTrim s.userInput == ""

/-- The spinner overlay condition (route.ts line 267). -/
def spinnerShown (s : ChatState) : Bool :=
  s.isLoading

/-! ## Helper lemmas -/

theorem handleSubmitStart_some (now : Nat) (s s1 : ChatState)
    (req : ChatRequest) (h : handleSubmitStart now s = some (s1, req)) :
    jsTrim s.userInput ≠ "" ∧
    s1 = { s with messages := s.messages ++ [mkUserMessage now s.userInput] } ∧
    req = { messages := (s.messages ++ [mkUserMessage now s.userInput]).map (fun m => (m.role, m.content)),
            model_type := s.selectedModel } := by
  unfold handleSubmitStart at h
  split at h
  · exact absurd h (by simp)
  · rename_i hc
    simp only [Option.some.injEq, Prod.mk.injEq] at h
    exact ⟨hc, h.1.symm, h.2.symm⟩

theorem handleSubmitResolve_messages (o : FetchOutcome) (s : ChatState) :
    (handleSubmitResolve o s).messages = s.messages := by
  cases o with
  | networkError msg => rfl
  | httpResponse ok status b =>
    simp only [handleSubmitResolve]
    split <;> rfl

theorem handleSubmitResolve_isLoading (o : FetchOutcome) (s : ChatState) :
    (handleSubmitResolve o s).isLoading = false := by
  cases o with
  | networkError msg => rfl
  | httpResponse ok status b =>
    simp only [handleSubmitResolve]
    split <;> rfl

theorem applyOp_isLoading_false (op : Op) (s : ChatState)
    (h : s.isLoading = false) : (applyOp op s).isLoading = false := by
  cases op with
  | submitStart n =>
    simp only [applyOp]
    cases hE : handleSubmitStart n s with
    | none => exact h
    | some p =>
      obtain ⟨s1, req⟩ := p
      obtain ⟨-, h1, -⟩ := handleSubmitStart_some n s s1 req hE
      subst h1
      exact h
  | submitResolve o => exact handleSubmitResolve_isLoading o s
  | saveName =>
    simp only [applyOp, handleSaveUserName]
    split <;> exact h
  | setInput t => exact h
  | setTempName t => exact h
  | startEditName => exact h
  | clearChat n => exact h
  | genAvatars u a => exact h
  | statusTick o => exact h
  | selectModel m => exact h

theorem applyOps_isLoading_false (ops : List Op) :
    ∀ s : ChatState, s.isLoading = false →
      (applyOps ops s).isLoading = false := by
  induction ops with
  | nil => intro s h; exact h
  | cons op rest ih =>
    intro s h
    exact ih _ (applyOp_isLoading_false op s h)

theorem loadStored_toStored (now : Nat) (m : Message) :
    loadStoredMessage now (toStored m) = m := rfl

theorem map_loadStored_toStored (now : Nat) (l : List Message) :
    (l.map toStored).map (loadStoredMessage now) = l := by
  rw [List.map_map]
  have hcomp : loadStoredMessage now ∘ toStored = id := funext fun m => rfl
  rw [hcomp, List.map_id]

theorem applyOp_messages_cases (op : Op) (s : ChatState) :
    (applyOp op s).messages = s.messages ∨
    (∃ m, (applyOp op s).messages = s.messages ++ [m]) ∨
    (∃ now, (applyOp op s).messages = [mkWelcomeMessage now]) := by
  cases op with
  | submitStart n =>
    simp only [applyOp]
    cases hE : handleSubmitStart n s with
    | none => exact Or.inl rfl
    | some p =>
      obtain ⟨s1, req⟩ := p
      obtain ⟨-, h1, -⟩ := handleSubmitStart_some n s s1 req hE
      subst h1
      exact Or.inr (Or.inl ⟨mkUserMessage n s.userInput, rfl⟩)
  | submitResolve o => exact Or.inl (handleSubmitResolve_messages o s)
  | clearChat n => exact Or.inr (Or.inr ⟨n, rfl⟩)
  | saveName =>
    simp only [applyOp, handleSaveUserName]
    split <;> exact Or.inl rfl
  | setInput t => exact Or.inl rfl
  | setTempName t => exact Or.inl rfl
  | startEditName => exact Or.inl rfl
  | genAvatars u a => exact Or.inl rfl
  | statusTick o => exact Or.inl rfl
  | selectModel m => exact Or.inl rfl

theorem idsOf_submitResolve (o : FetchOutcome) (s : ChatState) :
    idsOf (handleSubmitResolve o s) = idsOf s := by
  unfold idsOf
  rw [handleSubmitResolve_messages]

theorem idsOf_saveName (s : ChatState) :
    idsOf (handleSaveUserName s) = idsOf s := by
  unfold handleSaveUserName
  split <;> rfl

theorem c8_nodup_aux (ops : List Op) :
    ∀ s : ChatState, (idsOf s).Nodup →
      (∀ n ∈ submitNows ops, Nat.repr n ∉ idsOf s) →
      ((submitNows ops).map Nat.repr).Nodup →
      (∀ n ∈ submitNows ops, Nat.repr n ≠ "welcome-message") →
      (idsOf (applyOps ops s)).Nodup := by
  induction ops with
  | nil => intro s h _ _ _; exact h
  | cons op rest ih =>
    intro s hnd hfresh hmap hwel
    show (idsOf (applyOps rest (applyOp op s))).Nodup
    cases op with
    | submitStart n =>
      have hcons : submitNows (Op.submitStart n :: rest) = n :: submitNows rest := rfl
      rw [hcons] at hfresh hmap hwel
      simp only [List.map_cons, List.nodup_cons] at hmap
      simp only [applyOp]
      cases hE : handleSubmitStart n s with
      | none =>
        exact ih s hnd (fun m hm => hfresh m (List.mem_cons_of_mem _ hm))
          hmap.2 (fun m hm => hwel m (List.mem_cons_of_mem _ hm))
      | some p =>
        obtain ⟨s1, req⟩ := p
        obtain ⟨-, h1, -⟩ := handleSubmitStart_some n s s1 req hE
        subst h1
        have hids : idsOf { s with messages := s.messages ++ [mkUserMessage n s.userInput] }
            = idsOf s ++ [Nat.repr n] := by
          simp [idsOf, mkUserMessage]
        refine ih _ ?_ ?_ hmap.2 (fun m hm => hwel m (List.mem_cons_of_mem _ hm))
        · rw [hids]
          refine List.Nodup.append hnd (List.nodup_singleton _) ?_
          intro x hx hx2
          rw [List.mem_singleton] at hx2
          subst hx2
          exact hfresh n (List.mem_cons_self _ _) hx
        · intro m hm
          rw [hids]
          intro hmem
          rcases List.mem_append.mp hmem with hmem | hmem
          · exact hfresh m (List.mem_cons_of_mem _ hm) hmem
          · rw [List.mem_singleton] at hmem
            exact hmap.1 (hmem ▸ List.mem_map_of_mem Nat.repr hm)
    | submitResolve o =>
      rw [show applyOp (Op.submitResolve o) s = handleSubmitResolve o s from rfl]
      exact ih _ (by rw [idsOf_submitResolve]; exact hnd)
        (fun m hm => by rw [idsOf_submitResolve]; exact hfresh m hm) hmap hwel
    | clearChat n =>
      have hids : idsOf (applyOp (Op.clearChat n) s) = ["welcome-message"] := rfl
      refine ih _ ?_ ?_ hmap hwel
      · rw [hids]; exact List.nodup_singleton _
      · intro m hm
        rw [hids, List.mem_singleton]
        exact hwel m hm
    | saveName =>
      exact ih _ (by rw [show applyOp Op.saveName s = handleSaveUserName s from rfl, idsOf_saveName]; exact hnd)
        (fun m hm => by rw [show applyOp Op.saveName s = handleSaveUserName s from rfl, idsOf_saveName]; exact hfresh m hm) hmap hwel
    | setInput t => exact ih _ hnd hfresh hmap hwel
    | setTempName t => exact ih _ hnd hfresh hmap hwel
    | startEditName => exact ih _ hnd hfresh hmap hwel
    | genAvatars u a => exact ih _ hnd hfresh hmap hwel
    | statusTick o => exact ih _ hnd hfresh hmap hwel
    | selectModel m => exact ih _ hnd hfresh hmap hwel

/-! ## Claim theorems -/

/-- C10: in every state reachable from first activation, the isLoading
flag is false: no event handler ever sets it true (only the finally branch
of handleSubmit writes it, and writes false), so the spinner overlay is
never shown and the submit button is disabled exactly when the trimmed
input is empty. -/
theorem c10_isLoading_always_false (ops : List Op) (us as n0 : Nat) :
    (applyOps ops (startState us as n0)).isLoading = false ∧
    spinnerShown (applyOps ops (startState us as n0)) = false ∧
    submitButtonDisabled (applyOps ops (startState us as n0))
      = (jsTrim (applyOps ops (startState us as n0)).userInput == "") := by
  have h0 : (startState us as n0).isLoading = false := rfl
  have h := applyOps_isLoading_false ops (startState us as n0) h0
  refine ⟨h, h, ?_⟩
  unfold submitButtonDisabled
  rw [h]
  simp

/-- C8 counterexample: ids are not unique in every reachable state. Two
submissions issued in the same millisecond (here the second is issued while
the first is still in flight, so the input buffer still holds the text)
receive the same Date.now derived id "5", so the claimed uniqueness and
strict monotonicity of ids fail on this reachable trace. -/
theorem c8_counterexample_duplicate_ids :
    idsOf (applyOps [.setInput "hi", .submitStart 5, .submitStart 5]
        (startState 1 2 0))
      = ["welcome-message", "5", "5"] ∧
    ¬ (idsOf (applyOps [.setInput "hi", .submitStart 5, .submitStart 5]
        (startState 1 2 0))).Nodup := by
  constructor
  · decide
  · decide

/-- C8 amended: in every state reachable from first activation, message ids
are unique provided the submissions of the trace occur at clock readings
whose decimal renderings are pairwise distinct and differ from the fixed
welcome id (which holds whenever submissions fall in distinct
milliseconds); and the message sequence is append-only except for the
clear-chat reset: every event either leaves the sequence unchanged,
appends exactly one message at the end, or resets it to the single welcome
message. Individual deletion or reordering is impossible. -/
theorem c8_ids_amended (ops : List Op) (us as n0 : Nat)
    (h1 : ((submitNows ops).map Nat.repr).Nodup)
    (h2 : ∀ n ∈ submitNows ops, Nat.repr n ≠ "welcome-message") :
    (idsOf (applyOps ops (startState us as n0))).Nodup ∧
    ∀ op s, (applyOp op s).messages = s.messages ∨
      (∃ m, (applyOp op s).messages = s.messages ++ [m]) ∨
      (∃ now, (applyOp op s).messages = [mkWelcomeMessage now]) := by
  constructor
  · refine c8_nodup_aux ops (startState us as n0) ?_ ?_ h1 h2
    · show (["welcome-message"] : List String).Nodup
      exact List.nodup_singleton _
    · intro n hn
      show Nat.repr n ∉ ["welcome-message"]
      rw [List.mem_singleton]
      exact h2 n hn
  · exact applyOp_messages_cases

/-- C8 witness: the amended uniqueness theorem applied to a concrete trace
of two submissions at distinct clock readings. -/
theorem c8_ids_amended_witness :
    (((submitNows [.setInput "hi", .submitStart 5,
        .submitResolve (.httpResponse true 200 "r"), .setInput "yo",
        .submitStart 6]).map Nat.repr).Nodup ∧
      ∀ n ∈ submitNows [Op.setInput "hi", Op.submitStart 5,
        Op.submitResolve (.httpResponse true 200 "r"), Op.setInput "yo",
        Op.submitStart 6], Nat.repr n ≠ "welcome-message") ∧
    (idsOf (applyOps [.setInput "hi", .submitStart 5,
        .submitResolve (.httpResponse true 200 "r"), .setInput "yo",
        .submitStart 6] (startState 1 2 0))).Nodup :=
  ⟨⟨by decide, by decide⟩,
    (c8_ids_amended [.setInput "hi", .submitStart 5,
      .submitResolve (.httpResponse true 200 "r"), .setInput "yo",
      .submitStart 6] 1 2 0 (by decide) (by decide)).1⟩

/-- C4 counterexample: handleClearChat does not clear the recorded session
error. On a reachable state whose error is "boom" (set by a failed
dispatch), clearing the chat leaves the error in place, contradicting the
claim that the clear operation clears any recorded session error. -/
theorem c4_counterexample_clear_keeps_error :
    (handleClearChat 7 (applyOps
        [.setInput "x", .submitStart 1, .submitResolve (.networkError "boom")]
        (startState 1 2 0))).error = some "boom" ∧
    some "boom" ≠ (none : Option String) := by
  constructor
  · decide
  · decide

/-- C4 amended: the clear operation replaces the message sequence with
exactly one synthetic welcome message whose role is assistant and persists
that singleton history, and it leaves the selected backend, the user
profile (display name and both avatar references) and also the recorded
session error unchanged (the error is not cleared). -/
theorem c4_clear_chat_amended (now : Nat) (s : ChatState) (store : Store) :
    (handleClearChat now s).messages = [mkWelcomeMessage now] ∧
    (mkWelcomeMessage now).role = Role.assistant ∧
    (handleClearChat now s).error = s.error ∧
    (handleClearChat now s).selectedModel = s.selectedModel ∧
    (handleClearChat now s).userName = s.userName ∧
    (handleClearChat now s).userAvatar = s.userAvatar ∧
    (handleClearChat now s).aiAvatar = s.aiAvatar ∧
    (handleClearChatStore now store).history
      = some [toStored (mkWelcomeMessage now)] :=
  ⟨rfl, rfl, rfl, rfl, rfl, rfl, rfl, rfl⟩

/-- C5 counterexample: in the dual-backend ApiStatus component, a probe
that errors does not set that backend to disconnected. With both flags
showing connected, an erroring ollama probe (while the openrouter probe
would report online) leaves the whole state unchanged, so the ollama flag
stays connected instead of becoming disconnected as the claim requires. -/
theorem c5_counterexample_probe_error_leaves_connected :
    checkStatus .err (.ok ⟨some "online"⟩) ⟨true, true⟩ = ⟨true, true⟩ ∧
    (checkStatus .err (.ok ⟨some "online"⟩) ⟨true, true⟩).ollama ≠ false := by
  constructor
  · rfl
  · decide

/-- C5 amended: the single-backend monitor of the chat interface behaves as
claimed: an erroring probe yields disconnected, a body whose status field
is online yields connected, and any other resolved body yields
disconnected. In the dual-backend ApiStatus component, when both probes
resolve, each flag is set solely from its own body (online means
connected), so one resolved probe leaves the value of the other backend
determined only by that other probe; but when either probe errors, neither
flag is updated at all (there is no fail-closed transition to
disconnected). The probed GET route reports status online exactly when its
upstream health fetch returns an ok response. -/
theorem c5_connectivity_amended (d d1 d2 : ProbeBody) (o1 o2 : ProbeOutcome)
    (st : ApiStatusState) (h : HealthFetch) :
    checkOllamaStatus .err = ConnStatus.disconnected ∧
    (checkOllamaStatus (.ok d)
      = if d.status == some "online" then ConnStatus.connected
        else ConnStatus.disconnected) ∧
    checkStatus (.ok d1) (.ok d2) st
      = ⟨d1.status == some "online", d2.status == some "online"⟩ ∧
    checkStatus .err o2 st = st ∧
    checkStatus o1 .err st = st ∧
    ((routeGET h).status = "online" ↔ h = .response true) := by
  refine ⟨rfl, rfl, rfl, rfl, ?_, ?_⟩
  · cases o1 <;> rfl
  · cases h with
    | fetchError => simp [routeGET]
    | response ok => cases ok <;> simp [routeGET]

/-- C1: evaluation of the code at the failing input. After a failed
submission recorded the error "old", a successful submission of "hello"
(the dispatch resolves ok with reply body) appends no assistant message at
all: the final sequence is welcome, user "x", user "hello", the only
assistant-role message is the welcome message, no message carries the
returned reply content, and the previously recorded error is not cleared.
The success branch of handleSubmit ends in the dangling comment about
handling the streaming response, so the reply is dropped and the claimed
assistant append, and the error reset, never happen. -/
theorem c1_success_appends_no_assistant_and_keeps_error :
    (applyOps [.setInput "x", .submitStart 1,
        .submitResolve (.networkError "old"), .setInput "hello",
        .submitStart 2,
        .submitResolve (.httpResponse true 200 "Fatigue and pale skin are common symptoms.")]
        (startState 1 2 0)).error = some "old" ∧
    ((applyOps [.setInput "x", .submitStart 1,
        .submitResolve (.networkError "old"), .setInput "hello",
        .submitStart 2,
        .submitResolve (.httpResponse true 200 "Fatigue and pale skin are common symptoms.")]
        (startState 1 2 0)).messages.filter
          (fun m => m.role == Role.assistant)).length = 1 ∧
    (applyOps [.setInput "x", .submitStart 1,
        .submitResolve (.networkError "old"), .setInput "hello",
        .submitStart 2,
        .submitResolve (.httpResponse true 200 "Fatigue and pale skin are common symptoms.")]
        (startState 1 2 0)).messages.length = 3 ∧
    ∀ m ∈ (applyOps [.setInput "x", .submitStart 1,
        .submitResolve (.networkError "old"), .setInput "hello",
        .submitStart 2,
        .submitResolve (.httpResponse true 200 "Fatigue and pale skin are common symptoms.")]
        (startState 1 2 0)).messages,
      m.content ≠ "Fatigue and pale skin are common symptoms." := by
  refine ⟨by decide, by decide, by decide, by decide⟩

/-- C2 counterexample: a second submission issued while the first is still
in flight is not rejected. After setInput "hi" and a first submitStart, the
input buffer is still "hi" (it is only cleared when the fetch resolves), so
a second submitStart appends a second user message: the message count goes
from 2 to 3, a state change, contradicting the claimed rejection with no
state change while the controller is submitting. -/
theorem c2_counterexample_second_submission_accepted :
    (applyOps [.setInput "hi", .submitStart 1000]
        (startState 1 2 0)).messages.length = 2 ∧
    (applyOps [.setInput "hi", .submitStart 1000, .submitStart 1001]
        (startState 1 2 0)).messages.length = 3 := by
  refine ⟨by decide, by decide⟩

/-- C2 amended: a submission whose text is empty or whitespace-only is
rejected with no state change at all (handleSubmitStart returns none and a
full handleSubmit call is the identity); but there is no guard against an
in-flight submission: whenever a first submission has been dispatched, the
input buffer still holds its nonempty text, so a second submission issued
before the first resolves is accepted and appends a further user message. -/
theorem c2_submit_guard_amended (s s1 : ChatState) (req : ChatRequest)
    (now now2 : Nat) (h : handleSubmitStart now s = some (s1, req)) :
    (∀ (t : ChatState) (o : FetchOutcome) (n : Nat), jsTrim t.userInput = "" →
      handleSubmitStart n t = none ∧ handleSubmit n o t = t) ∧
    ∃ s2 req2, handleSubmitStart now2 s1 = some (s2, req2) ∧
      s2.messages = s1.messages ++ [mkUserMessage now2 s.userInput] := by
  obtain ⟨hg, hs1, -⟩ := handleSubmitStart_some now s s1 req h
  constructor
  · intro t o n ht
    have hnone : handleSubmitStart n t = none := by
      unfold handleSubmitStart
      rw [if_pos ht]
    refine ⟨hnone, ?_⟩
    unfold handleSubmit
    rw [hnone]
  · have hinput : s1.userInput = s.userInput := by rw [hs1]
    have hne : jsTrim s1.userInput ≠ "" := by rw [hinput]; exact hg
    have hE : handleSubmitStart now2 s1
        = some ({ s1 with messages := s1.messages ++ [mkUserMessage now2 s1.userInput] },
          { messages := (s1.messages ++ [mkUserMessage now2 s1.userInput]).map (fun m => (m.role, m.content)), model_type := s1.selectedModel }) := by
      unfold handleSubmitStart
      rw [if_neg hne]
    refine ⟨_, _, hE, ?_⟩
    rw [hinput]

/-- C2 witness: the amended theorem at a concrete in-flight state. -/
theorem c2_submit_guard_amended_witness :
    (handleSubmitStart 5 { initialChatState with userInput := "hi" }
      = some ({ initialChatState with userInput := "hi", messages := [mkUserMessage 5 "hi"] },
        { messages := [(Role.user, "hi")], model_type := ModelType.ollama })) ∧
    ((∀ (t : ChatState) (o : FetchOutcome) (n : Nat), jsTrim t.userInput = "" →
      handleSubmitStart n t = none ∧ handleSubmit n o t = t) ∧
    ∃ s2 req2, handleSubmitStart 6 { initialChatState with userInput := "hi", messages := [mkUserMessage 5 "hi"] } = some (s2, req2) ∧
      s2.messages = [mkUserMessage 5 "hi"] ++ [mkUserMessage 6 "hi"]) :=
  ⟨by decide,
    c2_submit_guard_amended { initialChatState with userInput := "hi" }
      { initialChatState with userInput := "hi", messages := [mkUserMessage 5 "hi"] }
      { messages := [(Role.user, "hi")], model_type := ModelType.ollama }
      5 6 (by decide)⟩

/-- C3: on an accepted submission whose dispatch fails, no assistant
message is appended (the sequence is exactly the prior sequence followed by
the optimistic user message), and the failure is recorded as the current
session error, overwriting whatever error was there before: a non-ok HTTP
response records the message carrying the HTTP status, and a rejected
fetch records the network error message. -/
theorem c3_failure_records_error_no_assistant (s : ChatState)
    (now status : Nat) (b msg : String) (h : jsTrim s.userInput ≠ "") :
    (handleSubmit now (.httpResponse false status b) s).messages
      = s.messages ++ [mkUserMessage now s.userInput] ∧
    (handleSubmit now (.httpResponse false status b) s).error
      = some ("HTTP error! status: " ++ Nat.repr status) ∧
    (handleSubmit now (.networkError msg) s).messages
      = s.messages ++ [mkUserMessage now s.userInput] ∧
    (handleSubmit now (.networkError msg) s).error = some msg ∧
    (mkUserMessage now s.userInput).role = Role.user := by
  unfold handleSubmit handleSubmitStart
  rw [if_neg h]
  exact ⟨rfl, rfl, rfl, rfl, rfl⟩

/-- C3 witness: a failed dispatch with HTTP status 500 and a network
failure, from a state whose input is "hi" and whose prior error was set. -/
theorem c3_failure_records_error_no_assistant_witness :
    (jsTrim ({ initialChatState with userInput := "hi", error := some "prior" } : ChatState).userInput ≠ "") ∧
    (handleSubmit 7 (.httpResponse false 500 "")
        { initialChatState with userInput := "hi", error := some "prior" }).messages
      = [mkUserMessage 7 "hi"] ∧
    (handleSubmit 7 (.httpResponse false 500 "")
        { initialChatState with userInput := "hi", error := some "prior" }).error
      = some "HTTP error! status: 500" ∧
    (handleSubmit 7 (.networkError "failed to fetch")
        { initialChatState with userInput := "hi", error := some "prior" }).messages
      = [mkUserMessage 7 "hi"] ∧
    (handleSubmit 7 (.networkError "failed to fetch")
        { initialChatState with userInput := "hi", error := some "prior" }).error
      = some "failed to fetch" :=
  ⟨by decide,
    (c3_failure_records_error_no_assistant
      { initialChatState with userInput := "hi", error := some "prior" }
      7 500 "" "failed to fetch" (by decide)).1,
    (c3_failure_records_error_no_assistant
      { initialChatState with userInput := "hi", error := some "prior" }
      7 500 "" "failed to fetch" (by decide)).2.1,
    (c3_failure_records_error_no_assistant
      { initialChatState with userInput := "hi", error := some "prior" }
      7 500 "" "failed to fetch" (by decide)).2.2.1,
    (c3_failure_records_error_no_assistant
      { initialChatState with userInput := "hi", error := some "prior" }
      7 500 "" "failed to fetch" (by decide)).2.2.2.1⟩

/-- C6 counterexample: the pending input buffer is not cleared before the
Model Router is invoked. At the suspension point of an accepted submission
of "hi" (the state in which the outbound request has just been issued) the
buffer still holds "hi"; and when the dispatch then fails with a network
error, the buffer is never cleared at all. -/
theorem c6_counterexample_buffer_not_cleared_before_dispatch :
    ((handleSubmitStart 3 (applyOps [.setInput "hi"] (startState 1 2 0))).map
        (fun p => p.1.userInput)) = some "hi" ∧
    "hi" ≠ "" ∧
    (handleSubmit 3 (.networkError "failed to fetch")
        (applyOps [.setInput "hi"] (startState 1 2 0))).userInput = "hi" := by
  refine ⟨by decide, by decide, by decide⟩

/-- C6 amended: for every accepted submission, before the Model Router is
invoked the user message (role user) is appended to the conversation
sequence, visible before network completion; the pending input buffer,
however, still holds the submitted text at dispatch time and is cleared
only when the dispatch resolves with an HTTP response (never when it fails
with a network error); and the optimistic user-message append precedes any
error record, since the error field is untouched at the suspension point
and written only by the downstream continuation. -/
theorem c6_optimistic_append_amended (s s1 : ChatState) (req : ChatRequest)
    (now : Nat) (h : handleSubmitStart now s = some (s1, req)) :
    s1.messages = s.messages ++ [mkUserMessage now s.userInput] ∧
    (mkUserMessage now s.userInput).role = Role.user ∧
    s1.userInput = s.userInput ∧
    s1.error = s.error ∧
    (∀ msg, (handleSubmitResolve (.networkError msg) s1).userInput
      = s.userInput) ∧
    (∀ (ok : Bool) (st : Nat) (b : String),
      (handleSubmitResolve (.httpResponse ok st b) s1).userInput = "") := by
  obtain ⟨-, hs1, -⟩ := handleSubmitStart_some now s s1 req h
  subst hs1
  refine ⟨rfl, rfl, rfl, rfl, fun msg => rfl, fun ok st b => ?_⟩
  simp only [handleSubmitResolve]
  split <;> rfl

/-- C6 witness: the amended theorem at a concrete accepted submission. -/
theorem c6_optimistic_append_amended_witness :
    (handleSubmitStart 5 { initialChatState with userInput := "hi" }
      = some ({ initialChatState with userInput := "hi", messages := [mkUserMessage 5 "hi"] },
        { messages := [(Role.user, "hi")], model_type := ModelType.ollama })) ∧
    ({ initialChatState with userInput := "hi", messages := [mkUserMessage 5 "hi"] } : ChatState).messages
      = [] ++ [mkUserMessage 5 "hi"] ∧
    ({ initialChatState with userInput := "hi", messages := [mkUserMessage 5 "hi"] } : ChatState).userInput = "hi" :=
  ⟨by decide,
    (c6_optimistic_append_amended { initialChatState with userInput := "hi" }
      { initialChatState with userInput := "hi", messages := [mkUserMessage 5 "hi"] }
      { messages := [(Role.user, "hi")], model_type := ModelType.ollama }
      5 (by decide)).1,
    (c6_optimistic_append_amended { initialChatState with userInput := "hi" }
      { initialChatState with userInput := "hi", messages := [mkUserMessage 5 "hi"] }
      { messages := [(Role.user, "hi")], model_type := ModelType.ollama }
      5 (by decide)).2.2.1⟩

/-- C7: round trip through the persistence adapter. If the store holds the
serialised message sequence of a session together with its profile keys,
then the load effect reproduces the identical ordered message sequence
(ids, roles, contents and timestamps, each timestamp to the same instant)
and the identical profile; and on a nonempty session the save effect
writes exactly that serialised sequence. -/
theorem c7_persistence_round_trip (s : ChatState) (store : Store)
    (us as now : Nat)
    (h1 : store.history = some (s.messages.map toStored))
    (h2 : store.username = some s.userName)
    (h3 : store.userAvatar = some s.userAvatar)
    (h4 : store.aiAvatar = some s.aiAvatar) :
    (loadSession store us as now).1.messages = s.messages ∧
    (loadSession store us as now).1.userName = s.userName ∧
    (loadSession store us as now).1.userAvatar = s.userAvatar ∧
    (loadSession store us as now).1.aiAvatar = s.aiAvatar ∧
    (∀ st : Store, s.messages ≠ [] →
      (saveMessagesEffect s st).history = some (s.messages.map toStored)) := by
  obtain ⟨sh, su, sua, sai⟩ := store
  obtain rfl : sh = some (s.messages.map toStored) := h1
  obtain rfl : su = some s.userName := h2
  obtain rfl : sua = some s.userAvatar := h3
  obtain rfl : sai = some s.aiAvatar := h4
  refine ⟨map_loadStored_toStored now s.messages, rfl, rfl, rfl, ?_⟩
  intro st hne
  unfold saveMessagesEffect
  rw [if_pos (by simpa using List.length_pos.mpr hne)]

/-- C7 witness: the round trip theorem applied to a concrete two-message
session stored with its profile keys. -/
theorem c7_persistence_round_trip_witness :
    ((⟨some ([mkWelcomeMessage 0, mkUserMessage 9 "hello"].map toStored), some "User", some "", some ""⟩ : Store).history
      = some (({ initialChatState with messages := [mkWelcomeMessage 0, mkUserMessage 9 "hello"] } : ChatState).messages.map toStored)) ∧
    (loadSession ⟨some ([mkWelcomeMessage 0, mkUserMessage 9 "hello"].map toStored), some "User", some "", some ""⟩ 3 4 5).1.messages
      = [mkWelcomeMessage 0, mkUserMessage 9 "hello"] :=
  ⟨rfl,
    (c7_persistence_round_trip
      { initialChatState with messages := [mkWelcomeMessage 0, mkUserMessage 9 "hello"] }
      ⟨some ([mkWelcomeMessage 0, mkUserMessage 9 "hello"].map toStored), some "User", some "", some ""⟩
      3 4 5 rfl rfl rfl rfl).1⟩

/-- C9: for every dispatch, the outbound request carries exactly the full
conversation sequence at dispatch time (the prior sequence plus the
optimistic user message) projected in order to role and content pairs with
ids and timestamps stripped, together with the model_type tag of the
currently selected backend; the ChatRequest shape has no further field. -/
theorem c9_request_body_projection (s s1 : ChatState) (req : ChatRequest)
    (now : Nat) (h : handleSubmitStart now s = some (s1, req)) :
    req.messages = s1.messages.map (fun m => (m.role, m.content)) ∧
    req.model_type = s.selectedModel ∧
    s1.messages = s.messages ++ [mkUserMessage now s.userInput] := by
  obtain ⟨-, hs1, hreq⟩ := handleSubmitStart_some now s s1 req h
  subst hs1
  subst hreq
  exact ⟨rfl, rfl, rfl⟩

/-- C9 witness: the projection theorem at a concrete dispatch. -/
theorem c9_request_body_projection_witness :
    (handleSubmitStart 5 { initialChatState with userInput := "hi" }
      = some ({ initialChatState with userInput := "hi", messages := [mkUserMessage 5 "hi"] },
        { messages := [(Role.user, "hi")], model_type := ModelType.ollama })) ∧
    ({ messages := [(Role.user, "hi")], model_type := ModelType.ollama } : ChatRequest).messages
      = ({ initialChatState with userInput := "hi", messages := [mkUserMessage 5 "hi"] } : ChatState).messages.map (fun m => (m.role, m.content)) :=
  ⟨by decide,
    (c9_request_body_projection { initialChatState with userInput := "hi" }
      { initialChatState with userInput := "hi", messages := [mkUserMessage 5 "hi"] }
      { messages := [(Role.user, "hi")], model_type := ModelType.ollama }
      5 (by decide)).1⟩
